import Mathlib

/-!
Verification of the RapidPro v2 API slice: the flow-start admission/dispatch
protocol (`FlowStartsEndpoint` + `FlowStartWriteSerializer`) and the
definitions-export dependency resolution (`DefinitionsEndpoint`), embedded
from `src/temba/api/v2/serializers.py` and `src/temba/api/v2/views.py`.

Entities are identified by numeric identifiers: UUIDs become `Nat` (the
claims under study concern unknown identifiers, never malformed UUID
strings, so the syntactic validation of `serializers.UUIDField` is elided).
The org-scoped relational store becomes an explicit `Database` record that
is threaded through the stateful operations (contact get-or-create, row
inserts).
-/

namespace RapidPro

abbrev UUID := Nat

/-- `temba.flows.models.Flow` row, restricted to the columns the endpoints
read: identity, org scope, active flag, and (for the definitions export)
its dependency references to sub-flows, triggers and groups. -/
structure Flow where
  uuid : UUID
  org : Nat
  is_active : Bool
  flow_deps : List UUID
  trigger_deps : List Nat
  group_deps : List Nat
  deriving Repr, DecidableEq

/-- `temba.contacts.models.Contact` row restricted to what the serializer
reads: identity, org scope, active flag, its URNs and creating user. -/
structure Contact where
  uuid : UUID
  org : Nat
  is_active : Bool
  urns : List String
  created_by : Nat
  deriving Repr, DecidableEq

/-- `temba.contacts.models.ContactGroup` row (user groups manager). -/
structure ContactGroup where
  uuid : UUID
  org : Nat
  is_active : Bool
  deriving Repr, DecidableEq

inductive FlowStartStatus where
  | pending
  | starting
  | complete
  | failed
  deriving Repr, DecidableEq

/-- `temba.flows.models.FlowStart` row: target flow, audience, the
restart-participants flag, status and creating user. -/
structure FlowStart where
  id : Nat
  flow : UUID
  contacts : List UUID
  groups : List UUID
  restart_participants : Bool
  status : FlowStartStatus
  created_by : Nat
  deriving Repr, DecidableEq

/-- `temba.campaigns.models.CampaignEvent` restricted to the columns
`DefinitionsEndpoint.get` filters on: event type, active flag and the
optional flow reference. -/
structure CampaignEvent where
  is_flow_event : Bool
  is_active : Bool
  flow : Option UUID
  deriving Repr, DecidableEq

/-- `temba.campaigns.models.Campaign` row with its events. -/
structure Campaign where
  uuid : UUID
  org : Nat
  events : List CampaignEvent
  deriving Repr, DecidableEq

/-- `temba.api.models.Resthook` row. -/
structure Resthook where
  slug : String
  org : Nat
  is_active : Bool
  deriving Repr, DecidableEq

/-- `temba.api.models.ResthookSubscriber` row. -/
structure ResthookSubscriber where
  id : Nat
  resthook_slug : String
  resthook_org : Nat
  target_url : String
  is_active : Bool
  created_by : Nat
  deriving Repr, DecidableEq

/-- The relational store, with a fresh-id counter for row creation. -/
structure Database where
  flows : List Flow
  contacts : List Contact
  groups : List ContactGroup
  flow_starts : List FlowStart
  campaigns : List Campaign
  resthooks : List Resthook
  subscribers : List ResthookSubscriber
  next_id : Nat
  deriving Repr, DecidableEq

/-- `Flow.objects.filter(org=org, is_active=True, uuid=value).first()`
(serializers.py:407). -/
def find_flow (db : Database) (org : Nat) (uuid : UUID) : Option Flow :=
  db.flows.find? (fun f => f.org == org && f.is_active && f.uuid == uuid)

/-- `Contact.objects.filter(org=org, is_active=True, uuid=contact_uuid).first()`
(serializers.py:415). -/
def find_contact (db : Database) (org : Nat) (uuid : UUID) : Option Contact :=
  db.contacts.find? (fun c => c.org == org && c.is_active && c.uuid == uuid)

/-- `ContactGroup.user_groups.filter(org=org, is_active=True, uuid=group_uuid).first()`
(serializers.py:425). -/
def find_group (db : Database) (org : Nat) (uuid : UUID) : Option ContactGroup :=
  db.groups.find? (fun g => g.org == org && g.is_active && g.uuid == uuid)

/-- Modelled from the spec: `URN.validate` (temba.contacts.models, not in
this slice). A URN "must be syntactically valid (scheme:path form, e.g.
tel:+250788123123)": a non-empty scheme, then a colon, then a non-empty
path. The walk carries whether a scheme character has been seen. -/
def URN_validate (data : String) : Bool :=
  go data.toList false
where
  go : List Char → Bool → Bool
    | [], _ => false
    | c :: rest, seen =>
      if c = ':' then seen && !rest.isEmpty
      else go rest true

/-- Modelled from the spec: `URN.normalize` (temba.contacts.models, not in
this slice). The spec attaches no observable normalization to the flow
start protocol, so it is the identity here. -/
def URN_normalize (data : String) : String :=
  data

/-- `URNField.to_internal_value` (serializers.py:64-68): reject
syntactically invalid URNs, normalize the rest. -/
def URNField_to_internal_value (data : String) : Except String String :=
  if !(URN_validate data) then
    Except.error ("Invalid URN: " ++ data)
  else
    Except.ok (URN_normalize data)

/-- Modelled from the spec: `Contact.get_or_create` (temba.contacts.models,
not in this slice). "An existing Contact with that URN is reused, otherwise
a new Contact is created on the fly, scoped to the org and attributed to
the requesting user." -/
def Contact_get_or_create (db : Database) (org user : Nat) (urn : String) :
    Contact × Database :=
  match db.contacts.find? (fun c => c.org == org && c.is_active && c.urns.contains urn) with
  | some c => (c, db)
  | none =>
    let c : Contact :=
      { uuid := db.next_id, org := org, is_active := true, urns := [urn], created_by := user }
    (c, { db with contacts := db.contacts ++ [c], next_id := db.next_id + 1 })

/-- Errors keyed by field name ("non_field_errors" for cross-field ones),
the shape `serializer.errors` takes in a 400 response body. -/
abbrev FieldErrors := List (String × String)

/-- `FlowStartWriteSerializer.validate_flow` (serializers.py:406-410). -/
def validate_flow (db : Database) (org : Nat) (value : UUID) : Except String Flow :=
  match find_flow db org value with
  | some flow => Except.ok flow
  | none => Except.error ("No flow found with UUID: " ++ toString value)

/-- `FlowStartWriteSerializer.validate_contacts` (serializers.py:412-420):
resolve each UUID, failing the whole field at the first unresolvable one.
(The source formats the whole input list into the message.) -/
def validate_contacts (db : Database) (org : Nat) (value : List UUID) :
    Except String (List Contact) :=
  go value
where
  go : List UUID → Except String (List Contact)
    | [] => Except.ok []
    | u :: rest =>
      match find_contact db org u with
      | none => Except.error ("No contact found with UUID: " ++ toString value)
      | some c => (go rest).map (fun cs => c :: cs)

/-- `FlowStartWriteSerializer.validate_groups` (serializers.py:422-430). -/
def validate_groups (db : Database) (org : Nat) (value : List UUID) :
    Except String (List ContactGroup) :=
  go value
where
  go : List UUID → Except String (List ContactGroup)
    | [] => Except.ok []
    | u :: rest =>
      match find_group db org u with
      | none => Except.error ("No group found with UUID: " ++ toString value)
      | some g => (go rest).map (fun gs => g :: gs)

/-- `URNListField` child validation (serializers.py:71-72): every URN in the
list must pass `URNField.to_internal_value`; any invalid entry fails the
whole field (so `validate_urns` is never reached for that request). -/
def URNListField_run_validation : List String → Except String (List String)
  | [] => Except.ok []
  | u :: rest =>
    match URNField_to_internal_value u with
    | Except.error e => Except.error e
    | Except.ok n => (URNListField_run_validation rest).map (fun ns => n :: ns)

/-- `FlowStartWriteSerializer.validate_urns` (serializers.py:432-438):
get-or-create a Contact per URN, threading the store through the calls. -/
def validate_urns (db : Database) (org user : Nat) :
    List String → List Contact × Database
  | [] => ([], db)
  | urn :: rest =>
    let (c, db1) := Contact_get_or_create db org user urn
    let (cs, db2) := validate_urns db1 org user rest
    (c :: cs, db2)

/-- A flow-start POST body as parsed JSON: each key is present or absent.
`restart_participants` can be present in the body, but it is NOT among the
serializer's declared fields (serializers.py:401-404 declare exactly
`flow`, `contacts`, `groups`, `urns`), so the framework's
`to_internal_value` never reads it. -/
structure FlowStartBody where
  flow : Option UUID
  contacts : Option (List UUID)
  groups : Option (List UUID)
  urns : Option (List String)
  restart_participants : Option Bool
  deriving Repr, DecidableEq

/-- A request body as handed to `WriteSerializer.run_validation`: either a
single JSON object of type `α` or something that is not a JSON object. -/
inductive RequestData (α : Type) where
  | jsonObject (body : α)
  | notAnObject
  deriving Repr, DecidableEq

/-- `FlowStartWriteSerializer.validated_data` after a successful
`to_internal_value`: optional fields are present only when the request
supplied them. `restart_participants` is carried as an `Option Bool` so
that `save` can mirror `validated_data.get('restart_participants', True)`;
since the field is not declared on the serializer, `to_internal_value`
always leaves it `none`. -/
structure FlowStartValidatedData where
  flow : Flow
  contacts : Option (List Contact)
  groups : Option (List ContactGroup)
  urns : Option (List Contact)
  restart_participants : Option Bool
  deriving Repr, DecidableEq

/-- One field's contribution to the aggregated error dict: tag an
`Except`'s error with the field name. -/
def fieldErrors (name : String) : Except String β → FieldErrors
  | Except.error e => [(name, e)]
  | Except.ok _ => []

/-- An optional field's result: absent fields validate to an absent value,
present fields propagate their validation outcome. -/
def optField : Option (Except String β) → Except String (Option β)
  | none => Except.ok none
  | some (Except.error e) => Except.error e
  | some (Except.ok b) => Except.ok (some b)

/-- `Serializer.to_internal_value` for `FlowStartWriteSerializer`: run each
declared field's validation (field parse, then the `validate_<field>`
method), aggregating the errors of all fields. The `urns` field's
`validate_urns` creates contacts as a side effect, so the store is threaded
out even when another field fails. -/
def FlowStart_to_internal_value (db : Database) (org user : Nat)
    (body : FlowStartBody) :
    Except FieldErrors FlowStartValidatedData × Database :=
  let flowRes : Except String Flow :=
    match body.flow with
    | none => Except.error "This field is required."
    | some u => validate_flow db org u
  let contactsRes : Option (Except String (List Contact)) :=
    body.contacts.map (validate_contacts db org)
  let groupsRes : Option (Except String (List ContactGroup)) :=
    body.groups.map (validate_groups db org)
  let urnsChild : Option (Except String (List String)) :=
    body.urns.map URNListField_run_validation
  let urnsRes : Option (Except String (List Contact)) × Database :=
    match urnsChild with
    | none => (none, db)
    | some (Except.error e) => (some (Except.error e), db)
    | some (Except.ok normalized) =>
      let (cs, db1) := validate_urns db org user normalized
      (some (Except.ok cs), db1)
  let errs : FieldErrors :=
    fieldErrors "flow" flowRes ++
    (contactsRes.map (fieldErrors "contacts")).getD [] ++
    (groupsRes.map (fieldErrors "groups")).getD [] ++
    (urnsRes.1.map (fieldErrors "urns")).getD []
  match flowRes, optField contactsRes, optField groupsRes, optField urnsRes.1 with
  | Except.ok flow, Except.ok cs, Except.ok gs, Except.ok us =>
    (Except.ok
      { flow := flow
        contacts := cs
        groups := gs
        urns := us
        -- not a declared serializer field, never populated:
        restart_participants := none },
     urnsRes.2)
  | _, _, _, _ => (Except.error errs, urnsRes.2)

/-- `FlowStartWriteSerializer.validate` (serializers.py:440-446): the
cross-field rule. The source concatenates
`data.get('groups', []) + data.get('contacts', []) + data.get('urns', [])`
and errors when that list is empty; here each list is mapped to units so
the heterogeneous concatenation typechecks. -/
def FlowStart_validate (data : FlowStartValidatedData) :
    Except String FlowStartValidatedData :=
  let args : List Unit :=
    (data.groups.getD []).map (fun _ => ()) ++
    (data.contacts.getD []).map (fun _ => ()) ++
    (data.urns.getD []).map (fun _ => ())
  if args.isEmpty then
    Except.error "Must specify at least one group, contact or URN"
  else
    Except.ok data

/-- `WriteSerializer.run_validation` (serializers.py:49-53): reject any
request body that is not a single JSON object before any per-field
validation, then defer to the subclass pipeline. -/
def WriteSerializer_run_validation (db : Database)
    (inner : Database → α → Except FieldErrors β × Database)
    (data : RequestData α) : Except FieldErrors β × Database :=
  match data with
  | RequestData.notAnObject =>
    (Except.error [("non_field_errors", "Request body should be a single JSON object")], db)
  | RequestData.jsonObject body => inner db body

/-- The full `FlowStartWriteSerializer` validation pipeline as the
framework runs it: the `WriteSerializer` object guard, then
`to_internal_value` (per-field), then `validate` (cross-field, reported
under `non_field_errors`). -/
def FlowStart_run_validation (db : Database) (org user : Nat)
    (data : RequestData FlowStartBody) :
    Except FieldErrors FlowStartValidatedData × Database :=
  WriteSerializer_run_validation db
    (fun db body =>
      match FlowStart_to_internal_value db org user body with
      | (Except.error errs, db1) => (Except.error errs, db1)
      | (Except.ok vd, db1) =>
        match FlowStart_validate vd with
        | Except.error e => (Except.error [("non_field_errors", e)], db1)
        | Except.ok vd => (Except.ok vd, db1))
    data

/-- Modelled from the spec: `FlowStart.create` (temba.flows.models, not in
this slice). "Created synchronously on API request with status `pending`";
stores the target flow, the audience and the restart-participants flag,
attributed to the requesting user. -/
def FlowStart_create (db : Database) (user : Nat) (flow : Flow)
    (restart : Bool) (contacts : List Contact)
    (groups : List ContactGroup) : FlowStart × Database :=
  let start : FlowStart :=
    { id := db.next_id
      flow := flow.uuid
      contacts := contacts.map (fun c => c.uuid)
      groups := groups.map (fun g => g.uuid)
      restart_participants := restart
      status := FlowStartStatus.pending
      created_by := user }
  (start, { db with flow_starts := db.flow_starts ++ [start], next_id := db.next_id + 1 })

/-- `FlowStartWriteSerializer.save` (serializers.py:448-455): create the
start from `validated_data`, defaulting `restart_participants` to true and
merging the URN-resolved contacts into the contact set. -/
def FlowStart_save (db : Database) (user : Nat) (vd : FlowStartValidatedData) :
    FlowStart × Database :=
  FlowStart_create db user vd.flow
    (vd.restart_participants.getD true)
    ((vd.contacts.getD []) ++ (vd.urns.getD []))
    (vd.groups.getD [])

/-- Observable actions of a request handler, in the order they occur. -/
inductive Event where
  | record_created (id : Nat)
  | async_start (id : Nat)
  | await_completion (id : Nat)
  | responded (status : Nat)
  deriving Repr, DecidableEq

/-- Outcome of a POST: HTTP status, error body (for 400), the created
record (for 201), the resulting store and the handler's action trace. -/
structure PostResult (α : Type) where
  status : Nat
  errors : FieldErrors
  created : Option α
  db : Database
  events : List Event
  deriving Repr, DecidableEq

/-- `CreateAPIMixin.post` (views.py:283-296) specialised to
`FlowStartsEndpoint` with its `post_save` (views.py:2120-2122): validate;
on success `serializer.save()` persists the pending record, then
`post_save` issues `instance.async_start()`, then the 201 response is
rendered; on failure respond 400 with `serializer.errors`. -/
def FlowStartsEndpoint_post (db : Database) (org user : Nat)
    (data : RequestData FlowStartBody) : PostResult FlowStart :=
  match FlowStart_run_validation db org user data with
  | (Except.error errs, db1) =>
    { status := 400, errors := errs, created := none, db := db1
      events := [Event.responded 400] }
  | (Except.ok vd, db1) =>
    let (start, db2) := FlowStart_save db1 user vd
    { status := 201, errors := [], created := some start, db := db2
      events := [Event.record_created start.id, Event.async_start start.id,
                 Event.responded 201] }

/-- A resthook-subscriber POST body as parsed JSON. -/
structure SubscriberBody where
  resthook : Option String
  target_url : Option String
  deriving Repr, DecidableEq

/-- `ResthookSubscriberWriteSerializer.validated_data`. -/
structure SubscriberValidatedData where
  resthook : String
  target_url : String
  deriving Repr, DecidableEq

/-- `ResthookSubscriberWriteSerializer.get_resthook` (serializers.py:575-576). -/
def get_resthook (db : Database) (org : Nat) (slug : String) : Option Resthook :=
  db.resthooks.find? (fun r => r.is_active && r.org == org && r.slug == slug)

/-- `ResthookSubscriberWriteSerializer.validate_resthook`
(serializers.py:578-583): a non-empty slug must resolve. -/
def validate_resthook (db : Database) (org : Nat) (value : String) :
    Except String String :=
  if !value.isEmpty then
    match get_resthook db org value with
    | none => Except.error ("No resthook with slug: " ++ value)
    | some _ => Except.ok value
  else
    Except.ok value

/-- `Serializer.to_internal_value` for `ResthookSubscriberWriteSerializer`:
both fields are required; `resthook` additionally runs `validate_resthook`.
(The slug/URL syntactic checks of `SlugField`/`URLField` are framework
behaviour the claims do not touch and are elided.) -/
def Subscriber_to_internal_value (db : Database) (org : Nat)
    (body : SubscriberBody) :
    Except FieldErrors SubscriberValidatedData × Database :=
  let resthookRes : Except String String :=
    match body.resthook with
    | none => Except.error "This field is required."
    | some v => validate_resthook db org v
  let urlRes : Except String String :=
    match body.target_url with
    | none => Except.error "This field is required."
    | some v => Except.ok v
  match resthookRes, urlRes with
  | Except.ok r, Except.ok u => (Except.ok { resthook := r, target_url := u }, db)
  | _, _ =>
    (Except.error (fieldErrors "resthook" resthookRes ++ fieldErrors "target_url" urlRes), db)

/-- `ResthookSubscriberWriteSerializer.validate` (serializers.py:585-593):
reject a duplicate active subscription for the same resthook and URL. -/
def Subscriber_validate (db : Database) (org : Nat)
    (vd : SubscriberValidatedData) : Except String SubscriberValidatedData :=
  match get_resthook db org vd.resthook with
  | some r =>
    if db.subscribers.any (fun s =>
        s.resthook_slug == r.slug && s.resthook_org == r.org &&
        s.target_url == vd.target_url && s.is_active) then
      Except.error "URL is already subscribed to this event."
    else
      Except.ok vd
  | none => Except.ok vd

/-- The full `ResthookSubscriberWriteSerializer` validation pipeline:
`WriteSerializer` object guard, per-field validation, cross-field check. -/
def Subscriber_run_validation (db : Database) (org : Nat)
    (data : RequestData SubscriberBody) :
    Except FieldErrors SubscriberValidatedData × Database :=
  WriteSerializer_run_validation db
    (fun db body =>
      match Subscriber_to_internal_value db org body with
      | (Except.error errs, db1) => (Except.error errs, db1)
      | (Except.ok vd, db1) =>
        match Subscriber_validate db1 org vd with
        | Except.error e => (Except.error [("non_field_errors", e)], db1)
        | Except.ok vd => (Except.ok vd, db1))
    data

/-- `ResthookSubscriberWriteSerializer.save` (serializers.py:595-598) with
`Resthook.add_subscriber` modelled from the spec (temba.api.models, not in
this slice): append an active subscriber row for the resolved resthook,
attributed to the requesting user. -/
def Subscriber_save (db : Database) (org user : Nat)
    (vd : SubscriberValidatedData) : ResthookSubscriber × Database :=
  let sub : ResthookSubscriber :=
    { id := db.next_id
      resthook_slug := vd.resthook
      resthook_org := org
      target_url := vd.target_url
      is_active := true
      created_by := user }
  (sub, { db with subscribers := db.subscribers ++ [sub], next_id := db.next_id + 1 })

/-- `CreateAPIMixin.post` (views.py:283-296) specialised to
`ResthookSubscriberEndpoint` (views.py:1614-1698), whose `post_save` is the
default no-op. -/
def ResthookSubscriberEndpoint_post (db : Database) (org user : Nat)
    (data : RequestData SubscriberBody) : PostResult ResthookSubscriber :=
  match Subscriber_run_validation db org data with
  | (Except.error errs, db1) =>
    { status := 400, errors := errs, created := none, db := db1
      events := [Event.responded 400] }
  | (Except.ok vd, db1) =>
    let (sub, db2) := Subscriber_save db1 org user vd
    { status := 201, errors := [], created := some sub, db := db2
      events := [Event.responded 201] }

/-- The request-scoped accumulator of the definitions export (spec §3):
sets of entity identifiers, deduplicated by identity. -/
structure DependencySet where
  flows : Finset Nat
  campaigns : Finset Nat
  triggers : Finset Nat
  groups : Finset Nat
  deriving DecidableEq

/-- All flow identifiers present in the store. -/
def flow_uuid_set (db : Database) : Finset Nat :=
  (db.flows.map (fun f => f.uuid)).toFinset

/-- Follow a flow reference to its row, as the live object graph does. -/
def find_flow_by_uuid (db : Database) (u : UUID) : Option Flow :=
  db.flows.find? (fun f => f.uuid == u)

/-- Modelled from the spec: `Flow.get_dependencies` (temba.flows.models,
not in this slice). Spec §4.1/§5: "recursively traverse its dependency
graph (sub-flows, triggers, groups) using visited-set tracking to
guarantee termination on cycles; each discovered Flow/Trigger/Group is
merged into the DependencySet exactly once", as "a bounded-memory,
visited-set-guarded walk". The worklist holds flows still to visit; a flow
already in the accumulated flow set is skipped. -/
def visitFlows (db : Database) (pending : List UUID) (deps : DependencySet) :
    DependencySet :=
  match pending with
  | [] => deps
  | f :: rest =>
    if hvisited : f ∈ deps.flows then
      visitFlows db rest deps
    else
      match hfind : find_flow_by_uuid db f with
      | none => visitFlows db rest deps
      | some node =>
        visitFlows db (node.flow_deps ++ rest)
          { deps with
              flows := insert f deps.flows
              triggers := deps.triggers ∪ node.trigger_deps.toFinset
              groups := deps.groups ∪ node.group_deps.toFinset }
termination_by ((flow_uuid_set db \ deps.flows).card, pending.length)
decreasing_by
· exact Prod.Lex.right _ (Nat.lt_succ_self _)
· exact Prod.Lex.right _ (Nat.lt_succ_self _)
· apply Prod.Lex.left
  have huuid : node.uuid = u := by
    have := List.find?_some hfind
    simpa using this
  have hmemdb : node ∈ db.flows := List.mem_of_find?_eq_some hfind
  have hin : u ∈ flow_uuid_set db := by
    simp only [flow_uuid_set, List.mem_toFinset, List.mem_map]
    exact ⟨node, hmemdb, huuid⟩
  have hmem : u ∈ flow_uuid_set db \ deps.flows :=
    Finset.mem_sdiff.mpr ⟨hin, hvisited⟩
  calc (flow_uuid_set db \ insert u deps.flows).card
      = ((flow_uuid_set db \ deps.flows).erase u).card := by
        rw [Finset.sdiff_insert]
    _ < (flow_uuid_set db \ deps.flows).card :=
        Finset.card_erase_lt_of_mem hmem

/-- `flow.get_dependencies(dependencies)` entry point: start the walk at
the given flow, merging into the accumulated set. -/
def Flow_get_dependencies (db : Database) (f : UUID) (deps : DependencySet) :
    DependencySet :=
  visitFlows db [f] deps

/-- Modelled from the spec: `str_to_bool` (temba.utils, not in this
slice): parse the boolean `dependencies` query parameter; truthy
spellings map to true, everything else to false (the original also folds
case, which no claim exercises). -/
def str_to_bool (text : String) : Bool :=
  ["true", "y", "yes", "1"].contains text

/-- Query parameters of a definitions GET. `flow`/`campaign` are the
new-style repeatable parameters (`getlist`, absent means empty);
`flow_uuid`/`campaign_uuid` carry `some values` exactly when the
deprecated parameter is present in the query string (`splitting_getlist`
already applied; for an absent parameter it yields the empty list). -/
structure DefParams where
  flow : List UUID
  campaign : List UUID
  flow_uuid : Option (List UUID)
  campaign_uuid : Option (List UUID)
  dependencies : Option String
  deriving Repr, DecidableEq

/-- views.py:1004-1009: the deprecated parameters are consulted whenever
either is present in the query string; the new-style `flow`/`campaign`
lists are used otherwise. -/
def requested_uuids (params : DefParams) : List UUID × List UUID :=
  if params.flow_uuid.isSome || params.campaign_uuid.isSome then
    (params.flow_uuid.getD [], params.campaign_uuid.getD [])
  else
    (params.flow, params.campaign)

/-- `campaign.events.filter(event_type=CampaignEvent.TYPE_FLOW,
is_active=True).exclude(flow=None)` mapped to the referenced flow
identifiers (views.py:1025-1026). -/
def campaign_flow_uuids (c : Campaign) : List UUID :=
  (c.events.filter (fun e => e.is_flow_event && e.is_active && e.flow.isSome)).filterMap
    (fun e => e.flow)

/-- The export document's collections (spec §6), rendered by
`org.export_definitions`, which is external to this slice and here just
packages the computed sets. -/
structure ExportBundle where
  flows : Finset Nat
  campaigns : Finset Nat
  triggers : Finset Nat
  deriving DecidableEq

/-- A definitions GET response. -/
structure GetResult where
  status : Nat
  bundle : ExportBundle

/-- `Flow.objects.filter(uuid__in=flow_uuids, org=org)` (views.py:1013-1016):
the resolution of the explicitly requested flow UUIDs against the
organization, as identifiers (an empty request resolves to nothing). -/
def resolved_flows_list (db : Database) (org : Nat) (flow_uuids : List UUID) :
    List UUID :=
  if !flow_uuids.isEmpty then
    (db.flows.filter (fun f => flow_uuids.contains f.uuid && f.org == org)).map
      (fun f => f.uuid)
  else []

/-- The set of explicitly requested flows after resolution. -/
def resolved_flow_set (db : Database) (org : Nat) (flow_uuids : List UUID) :
    Finset Nat :=
  (resolved_flows_list db org flow_uuids).toFinset

/-- `DefinitionsEndpoint.get` (views.py:1000-1044): resolve the requested
flow and campaign UUID lists against the organization, optionally pull
campaign event flows and walk flow dependencies, then export the union of
discovered and explicitly requested entities with status 200. -/
def DefinitionsEndpoint_get (db : Database) (org : Nat) (params : DefParams) :
    GetResult :=
  let uuids := requested_uuids params
  let flow_uuids := uuids.1
  let campaign_uuids := uuids.2
  let depends := str_to_bool (params.dependencies.getD "true")
  let flows0 : List UUID := resolved_flows_list db org flow_uuids
  let campaigns : List Campaign :=
    if !campaign_uuids.isEmpty then
      db.campaigns.filter (fun c => campaign_uuids.contains c.uuid && c.org == org)
    else []
  -- the working flow set; kept as a list of identifiers and deduplicated
  -- at export (the source keeps a python set of rows)
  let flows1 : List UUID :=
    if !campaign_uuids.isEmpty && depends then
      campaigns.foldl (fun acc c => acc ++ campaign_flow_uuids c) flows0
    else flows0
  let deps0 : DependencySet :=
    { flows := ∅, campaigns := (campaigns.map (fun c => c.uuid)).toFinset
      triggers := ∅, groups := ∅ }
  let deps1 : DependencySet :=
    flows1.foldl
      (fun d f => if depends then Flow_get_dependencies db f d else d) deps0
  let to_export : ExportBundle :=
    { flows := deps1.flows ∪ flows1.toFinset
      campaigns := deps1.campaigns
      triggers := deps1.triggers }
  { status := 200, bundle := to_export }

/-!
## Concrete fixtures

Small org-scoped stores and requests used to evaluate the endpoints at
concrete inputs.
-/

/-- An active flow (uuid 100) of org 1 with no dependencies. -/
def flowX : Flow :=
  { uuid := 100, org := 1, is_active := true, flow_deps := [], trigger_deps := [],
    group_deps := [] }

/-- An active contact (uuid 200) of org 1. -/
def contactY : Contact :=
  { uuid := 200, org := 1, is_active := true, urns := ["tel:+250788123123"], created_by := 3 }

/-- A store holding `flowX` and `contactY` for org 1. -/
def baseDb : Database :=
  { flows := [flowX], contacts := [contactY], groups := [], flow_starts := [],
    campaigns := [], resthooks := [], subscribers := [], next_id := 1000 }

/-- An empty dependency accumulator. -/
def emptyDependencySet : DependencySet :=
  { flows := ∅, campaigns := ∅, triggers := ∅, groups := ∅ }

/-!
## Claim theorems
-/

/-- C10: a write request whose body is not a single JSON object fails with
exactly the non-field error "Request body should be a single JSON object"
before any per-field validation runs (the store is untouched, so no
URN-driven contact creation happened either), and no record is created —
for the flow-start POST and the resthook-subscriber POST alike. -/
theorem write_request_non_object_rejected (db : Database) (org user : Nat) :
    (FlowStartsEndpoint_post db org user RequestData.notAnObject).status = 400 ∧
    (FlowStartsEndpoint_post db org user RequestData.notAnObject).errors =
      [("non_field_errors", "Request body should be a single JSON object")] ∧
    (FlowStartsEndpoint_post db org user RequestData.notAnObject).db = db ∧
    (FlowStartsEndpoint_post db org user RequestData.notAnObject).created = none ∧
    (ResthookSubscriberEndpoint_post db org user RequestData.notAnObject).status = 400 ∧
    (ResthookSubscriberEndpoint_post db org user RequestData.notAnObject).errors =
      [("non_field_errors", "Request body should be a single JSON object")] ∧
    (ResthookSubscriberEndpoint_post db org user RequestData.notAnObject).db = db ∧
    (ResthookSubscriberEndpoint_post db org user RequestData.notAnObject).created = none :=
  ⟨rfl, rfl, rfl, rfl, rfl, rfl, rfl, rfl⟩

/-- C1: a flow-start POST that supplies `restart_participants = false` (with
an otherwise valid body) is accepted, but the created FlowStart record has
`restart_participants = true`: the serializer declares no
`restart_participants` field, so the framework drops the key and `save`
falls back to its default. This contradicts the endpoint's own
documentation of the field (views.py:2052, 2156-2157). -/
theorem flow_start_restart_participants_dropped :
    (FlowStartsEndpoint_post baseDb 1 7 (RequestData.jsonObject
      { flow := some 100, contacts := some [200], groups := none, urns := none,
        restart_participants := some false })).status = 201 ∧
    ((FlowStartsEndpoint_post baseDb 1 7 (RequestData.jsonObject
      { flow := some 100, contacts := some [200], groups := none, urns := none,
        restart_participants := some false })).created.map
        (fun s => s.restart_participants)) = some true := by
  decide

/-- Validated data with an empty audience (no groups, contacts or urns). -/
def vdEmptyAudience : FlowStartValidatedData :=
  { flow := flowX, contacts := none, groups := none, urns := none,
    restart_participants := none }

/-- C4 counterexample: with an empty audience the cross-field validation
does fail, but its error message is "Must specify at least one group,
contact or URN" (capital M, serializers.py:444), not the claimed
"must specify at least one group, contact or URN". -/
theorem cross_field_error_message_counterexample :
    FlowStart_validate vdEmptyAudience =
      Except.error "Must specify at least one group, contact or URN" ∧
    "Must specify at least one group, contact or URN" ≠
      "must specify at least one group, contact or URN" := by
  constructor
  · rfl
  · decide

/-- C4 (amended): cross-field validation fails with the error
"Must specify at least one group, contact or URN" exactly when the
resolved groups, contacts and urns collections are all empty; otherwise it
succeeds, returning the data unchanged. -/
theorem cross_field_audience_rule (data : FlowStartValidatedData) :
    (FlowStart_validate data =
        Except.error "Must specify at least one group, contact or URN" ↔
      data.groups.getD [] = [] ∧ data.contacts.getD [] = [] ∧
        data.urns.getD [] = []) ∧
    (FlowStart_validate data = Except.ok data ↔
      ¬(data.groups.getD [] = [] ∧ data.contacts.getD [] = [] ∧
        data.urns.getD [] = [])) := by
  by_cases h : data.groups.getD [] = [] ∧ data.contacts.getD [] = [] ∧
      data.urns.getD [] = []
  · obtain ⟨hg, hc, hu⟩ := h
    constructor
    · simp [FlowStart_validate, hg, hc, hu]
    · simp [FlowStart_validate, hg, hc, hu]
  · have hargs : ¬((data.groups.getD []).map (fun _ => ()) ++
        (data.contacts.getD []).map (fun _ => ()) ++
        (data.urns.getD []).map (fun _ => ())).isEmpty = true := by
      simpa [List.isEmpty_iff, List.append_eq_nil, List.map_eq_nil_iff,
        and_assoc] using h
    constructor
    · simp only [FlowStart_validate, hargs, if_false, Bool.false_eq_true]
      constructor
      · intro heq
        cases heq
      · intro hall
        exact absurd hall h
    · simp only [FlowStart_validate, hargs, if_false, Bool.false_eq_true]
      constructor
      · intro _
        exact h
      · intro _
        trivial

/-!
## Helper lemmas
-/

/-- Folding a function that ignores the list elements leaves the
accumulator unchanged. -/
theorem foldl_skip {α β : Type} (l : List β) (init : α) :
    l.foldl (fun d _ => d) init = init := by
  induction l generalizing init with
  | nil => rfl
  | cons b t ih => exact ih init

/-- Membership in the accumulator is preserved by append-folding. -/
theorem mem_foldl_append {α β : Type} (l : List β) (g : β → List α)
    (acc : List α) (x : α) (hx : x ∈ acc) :
    x ∈ l.foldl (fun a c => a ++ g c) acc := by
  induction l generalizing acc with
  | nil => exact hx
  | cons b t ih => exact ih _ (List.mem_append_left _ hx)

/-- The dependency walk only ever adds to the accumulated flow set. -/
theorem visitFlows_flows_mono (db : Database) (pending : List UUID)
    (deps : DependencySet) : deps.flows ⊆ (visitFlows db pending deps).flows := by
  induction pending, deps using visitFlows.induct db with
  | case1 deps => rw [visitFlows]
  | case2 deps f rest hvis ih => rw [visitFlows]; simpa [hvis] using ih
  | case3 deps f rest hvis hfind ih =>
    rw [visitFlows, dif_neg hvis]
    split
    · exact ih
    · rename_i node heq
      rw [hfind] at heq
      cases heq
  | case4 deps f rest hvis node hfind ih =>
    rw [visitFlows, dif_neg hvis]
    split
    · rename_i heq
      rw [hfind] at heq
      cases heq
    · rename_i node2 heq
      rw [hfind] at heq
      cases heq
      exact (Finset.subset_insert f deps.flows).trans ih

/-- A store with two org-1 flows (uuids 1 and 2), no dependencies. -/
def dbTwoFlows : Database :=
  { flows := [
      { uuid := 1, org := 1, is_active := true, flow_deps := [], trigger_deps := [],
        group_deps := [] },
      { uuid := 2, org := 1, is_active := true, flow_deps := [], trigger_deps := [],
        group_deps := [] }],
    contacts := [], groups := [], flow_starts := [], campaigns := [],
    resthooks := [], subscribers := [], next_id := 1000 }

/-- A definitions request supplying BOTH the new-style `flow=[1]` and the
deprecated `flow_uuid=[2]`. -/
def paramsBothStyles : DefParams :=
  { flow := [1], campaign := [], flow_uuid := some [2], campaign_uuid := none,
    dependencies := some "false" }

/-- C9 counterexample: when the new-style `flow` parameter is present
alongside the deprecated `flow_uuid`, the deprecated one determines the
requested set — the bundle contains flow 2, not the new-style flow 1 — so
the new-style parameters do NOT determine the requested UUID sets whenever
present. -/
theorem new_style_params_not_always_used :
    paramsBothStyles.flow = [1] ∧
    (requested_uuids paramsBothStyles).1 = [2] ∧
    (DefinitionsEndpoint_get dbTwoFlows 1 paramsBothStyles).bundle.flows = {2} ∧
    (DefinitionsEndpoint_get dbTwoFlows 1 paramsBothStyles).bundle.flows ≠ {1} := by
  refine ⟨rfl, rfl, ?_, ?_⟩ <;> decide

/-- C9 (amended): the deprecated `flow_uuid`/`campaign_uuid` aliases
determine the requested UUID sets whenever either is present; the
new-style `flow`/`campaign` parameters are consulted only when both
deprecated aliases are absent. -/
theorem deprecated_params_take_precedence (params : DefParams) :
    (params.flow_uuid = none ∧ params.campaign_uuid = none →
      requested_uuids params = (params.flow, params.campaign)) ∧
    (params.flow_uuid.isSome ∨ params.campaign_uuid.isSome →
      requested_uuids params =
        (params.flow_uuid.getD [], params.campaign_uuid.getD [])) := by
  constructor
  · intro h
    obtain ⟨h1, h2⟩ := h
    simp [requested_uuids, h1, h2]
  · intro h
    have hcond : (params.flow_uuid.isSome || params.campaign_uuid.isSome) = true := by
      rcases h with h | h <;> simp [h]
    simp [requested_uuids, hcond]

/-- Witness for C9 (amended): both directions at concrete parameters. -/
theorem deprecated_params_take_precedence_witness :
    requested_uuids
        { flow := [5], campaign := [6], flow_uuid := none, campaign_uuid := none,
          dependencies := none } = ([5], [6]) ∧
    requested_uuids paramsBothStyles = ([2], []) :=
  ⟨(deprecated_params_take_precedence _).1 ⟨rfl, rfl⟩,
   (deprecated_params_take_precedence paramsBothStyles).2 (Or.inl rfl)⟩

/-- A store mixing orgs: flow 10 and campaign 30 belong to org 1, flow 20
and campaign 40 to org 2. -/
def dbMixed : Database :=
  { flows := [
      { uuid := 10, org := 1, is_active := true, flow_deps := [], trigger_deps := [],
        group_deps := [] },
      { uuid := 20, org := 2, is_active := true, flow_deps := [], trigger_deps := [],
        group_deps := [] }],
    contacts := [], groups := [], flow_starts := [],
    campaigns := [
      { uuid := 30, org := 1, events := [] },
      { uuid := 40, org := 2, events := [] }],
    resthooks := [], subscribers := [], next_id := 1000 }

/-- A definitions request mixing valid (10, 30), unknown (99, 98) and
cross-org (20, 40) identifiers. -/
def paramsMixed : DefParams :=
  { flow := [10, 99, 20], campaign := [30, 98, 40], flow_uuid := none,
    campaign_uuid := none, dependencies := none }

/-- A definitions request naming nothing. -/
def emptyDefParams : DefParams :=
  { flow := [], campaign := [], flow_uuid := none, campaign_uuid := none,
    dependencies := none }

/-- C5: a definitions GET always answers 200; a requested UUID resolves
into the flow set exactly when an active-or-not flow row with that UUID
exists in the caller's org (so unknown and cross-org UUIDs are silently
excluded, never an error); concretely, a request mixing valid, unknown and
cross-org UUIDs yields only the valid org entities, and an empty request
yields empty collections. -/
theorem definitions_unknown_uuid_tolerance :
    (∀ db org params, (DefinitionsEndpoint_get db org params).status = 200) ∧
    (∀ db org flow_uuids u, u ∈ resolved_flow_set db org flow_uuids ↔
      ∃ f ∈ db.flows, f.org = org ∧ f.uuid = u ∧ u ∈ flow_uuids) ∧
    (DefinitionsEndpoint_get dbMixed 1 paramsMixed).bundle.flows = {10} ∧
    (DefinitionsEndpoint_get dbMixed 1 paramsMixed).bundle.campaigns = {30} ∧
    (DefinitionsEndpoint_get dbMixed 1 emptyDefParams).bundle.flows = ∅ ∧
    (DefinitionsEndpoint_get dbMixed 1 emptyDefParams).bundle.campaigns = ∅ ∧
    (DefinitionsEndpoint_get dbMixed 1 emptyDefParams).bundle.triggers = ∅ := by
  refine ⟨fun db org params => rfl, ?_, ?_, ?_, ?_, ?_, ?_⟩
  · intro db org flow_uuids u
    by_cases hemp : flow_uuids.isEmpty
    · rw [List.isEmpty_iff] at hemp
      simp [resolved_flow_set, resolved_flows_list, hemp]
    · constructor
      · intro hu
        simp only [resolved_flow_set, resolved_flows_list, hemp, Bool.not_false,
          if_pos, List.mem_toFinset, List.mem_map, List.mem_filter,
          Bool.and_eq_true, beq_iff_eq] at hu
        obtain ⟨f, ⟨hf, hcond⟩, rfl⟩ := hu
        exact ⟨f, hf, hcond.2, rfl, by
          have := hcond.1
          simpa [List.elem_iff] using this⟩
      · intro hu
        obtain ⟨f, hf, horg, huuid, hmem⟩ := hu
        simp only [resolved_flow_set, resolved_flows_list, hemp, Bool.not_false,
          if_pos, List.mem_toFinset, List.mem_map, List.mem_filter,
          Bool.and_eq_true, beq_iff_eq]
        exact ⟨f, ⟨hf, by simpa [List.elem_iff, huuid] using hmem, horg⟩, huuid⟩
  · simp [DefinitionsEndpoint_get, requested_uuids, paramsMixed, dbMixed,
      str_to_bool, resolved_flows_list, campaign_flow_uuids,
      Flow_get_dependencies, visitFlows, find_flow_by_uuid, List.find?]
  · simp [DefinitionsEndpoint_get, requested_uuids, paramsMixed, dbMixed,
      str_to_bool, resolved_flows_list, campaign_flow_uuids,
      Flow_get_dependencies, visitFlows, find_flow_by_uuid, List.find?]
  · simp [DefinitionsEndpoint_get, requested_uuids, emptyDefParams, dbMixed,
      str_to_bool, resolved_flows_list, campaign_flow_uuids,
      Flow_get_dependencies, visitFlows, find_flow_by_uuid, List.find?]
  · simp [DefinitionsEndpoint_get, requested_uuids, emptyDefParams, dbMixed,
      str_to_bool, resolved_flows_list, campaign_flow_uuids,
      Flow_get_dependencies, visitFlows, find_flow_by_uuid, List.find?]
  · simp [DefinitionsEndpoint_get, requested_uuids, emptyDefParams, dbMixed,
      str_to_bool, resolved_flows_list, campaign_flow_uuids,
      Flow_get_dependencies, visitFlows, find_flow_by_uuid, List.find?]

/-- Flows A (uuid 0) and B (uuid 1) of org 1 depending on each other. -/
def dbCycle : Database :=
  { flows := [
      { uuid := 0, org := 1, is_active := true, flow_deps := [1], trigger_deps := [],
        group_deps := [] },
      { uuid := 1, org := 1, is_active := true, flow_deps := [0], trigger_deps := [],
        group_deps := [] }],
    contacts := [], groups := [], flow_starts := [], campaigns := [],
    resthooks := [], subscribers := [], next_id := 50 }

/-- A definitions request for flow A only, dependencies defaulted (true). -/
def paramsFlowA : DefParams :=
  { flow := [0], campaign := [], flow_uuid := none, campaign_uuid := none,
    dependencies := none }

/-- C8: the dependency walk is visited-set guarded — it is a total function
(termination is established by the decreasing measure of its definition),
its accumulated flow set only ever grows and, being a finite set keyed by
identifier, holds each entity exactly once; on the two-flow cycle A → B →
A, resolving with A requested yields exactly the set with A and B, both as
a direct walk and through the endpoint. -/
theorem dependency_cycle_safety :
    (∀ db pending deps, deps.flows ⊆ (visitFlows db pending deps).flows) ∧
    (Flow_get_dependencies dbCycle 0 emptyDependencySet).flows = {0, 1} ∧
    (DefinitionsEndpoint_get dbCycle 1 paramsFlowA).bundle.flows = {0, 1} := by
  refine ⟨visitFlows_flows_mono, ?_, ?_⟩
  · simp [Flow_get_dependencies, visitFlows, find_flow_by_uuid, dbCycle,
      emptyDependencySet, List.find?]
    decide
  · simp [DefinitionsEndpoint_get, requested_uuids, paramsFlowA, dbCycle,
      str_to_bool, resolved_flows_list, campaign_flow_uuids,
      Flow_get_dependencies, visitFlows, find_flow_by_uuid, List.find?]
    decide

/-- A definitions request for flow A with `dependencies=false`. -/
def paramsFlowANoDeps : DefParams :=
  { flow := [0], campaign := [], flow_uuid := none, campaign_uuid := none,
    dependencies := some "false" }

/-- C3: with `dependencies=false` the exported flows collection is exactly
the resolved explicitly requested flow set; and in general (any
`dependencies` value) the traversal only ever adds to that base set — the
resolved requested flows are always contained in the bundle. -/
theorem definitions_base_set_inclusion :
    (∀ db org params, str_to_bool (params.dependencies.getD "true") = false →
      (DefinitionsEndpoint_get db org params).bundle.flows =
        resolved_flow_set db org (requested_uuids params).1) ∧
    (∀ db org params, resolved_flow_set db org (requested_uuids params).1 ⊆
      (DefinitionsEndpoint_get db org params).bundle.flows) := by
  constructor
  · intro db org params hdep
    simp [DefinitionsEndpoint_get, hdep, foldl_skip, resolved_flow_set]
  · intro db org params u hu
    simp only [resolved_flow_set, List.mem_toFinset] at hu
    simp only [DefinitionsEndpoint_get]
    apply Finset.mem_union_right
    rw [List.mem_toFinset]
    split_ifs with hc
    all_goals first
    | exact hu
    | exact mem_foldl_append _ _ _ _ hu

/-- Witness for C3: requesting flow A (which has a dependency on flow B)
with `dependencies=false` exports exactly the resolved base set. -/
theorem definitions_base_set_inclusion_witness :
    str_to_bool (paramsFlowANoDeps.dependencies.getD "true") = false ∧
    (DefinitionsEndpoint_get dbCycle 1 paramsFlowANoDeps).bundle.flows =
      resolved_flow_set dbCycle 1 (requested_uuids paramsFlowANoDeps).1 :=
  ⟨by decide, definitions_base_set_inclusion.1 dbCycle 1 paramsFlowANoDeps (by decide)⟩

/-- `Contact.get_or_create` never touches the flow-start table. -/
theorem get_or_create_flow_starts (db : Database) (org user : Nat) (urn : String) :
    (Contact_get_or_create db org user urn).2.flow_starts = db.flow_starts := by
  unfold Contact_get_or_create
  split <;> rfl

/-- `Contact.get_or_create` either reuses the store or appends exactly one
contact scoped to the org and attributed to the user. -/
theorem get_or_create_contacts_extend (db : Database) (org user : Nat) (urn : String) :
    (Contact_get_or_create db org user urn).2.contacts = db.contacts ∨
    ∃ n : Contact, n.org = org ∧ n.created_by = user ∧
      (Contact_get_or_create db org user urn).2.contacts = db.contacts ++ [n] := by
  unfold Contact_get_or_create
  split
  · exact Or.inl rfl
  · exact Or.inr ⟨_, rfl, rfl, rfl⟩

/-- The contact resolved by `Contact.get_or_create` is org-scoped and is
either an existing row or attributed to the requesting user. -/
theorem get_or_create_contact_spec (db : Database) (org user : Nat) (urn : String) :
    (Contact_get_or_create db org user urn).1.org = org ∧
    ((Contact_get_or_create db org user urn).1 ∈ db.contacts ∨
      (Contact_get_or_create db org user urn).1.created_by = user) := by
  unfold Contact_get_or_create
  split
  · rename_i c hfind
    have hpred := List.find?_some hfind
    simp only [Bool.and_eq_true, beq_iff_eq] at hpred
    exact ⟨hpred.1.1, Or.inl (List.mem_of_find?_eq_some hfind)⟩
  · exact ⟨rfl, Or.inr rfl⟩

/-- `validate_urns` resolves exactly one contact per URN, each scoped to
the org and either pre-existing or attributed to the requesting user. -/
theorem validate_urns_spec (db : Database) (org user : Nat) (urns : List String) :
    (validate_urns db org user urns).1.length = urns.length ∧
    ∀ c ∈ (validate_urns db org user urns).1,
      c.org = org ∧ (c ∈ db.contacts ∨ c.created_by = user) := by
  induction urns generalizing db with
  | nil =>
    refine ⟨rfl, ?_⟩
    intro c hc
    cases hc
  | cons urn rest ih =>
    rcases hgc : Contact_get_or_create db org user urn with ⟨c, db1⟩
    rcases hv : validate_urns db1 org user rest with ⟨cs, db2⟩
    have hspec := get_or_create_contact_spec db org user urn
    have hext := get_or_create_contacts_extend db org user urn
    rw [hgc] at hspec hext
    have hih := ih db1
    rw [hv] at hih
    simp only [validate_urns, hgc, hv]
    constructor
    · simpa using hih.1
    · intro x hx
      rcases List.mem_cons.mp hx with rfl | hxs
      · exact hspec
      · have hx2 := hih.2 x hxs
        refine ⟨hx2.1, ?_⟩
        rcases hx2.2 with hmem | hcb
        · rcases hext with heq | ⟨n, hnorg, hncb, heq⟩
          · rw [heq] at hmem
            exact Or.inl hmem
          · rw [heq] at hmem
            rcases List.mem_append.mp hmem with h1 | h1
            · exact Or.inl h1
            · have hxn : x = n := by simpa using h1
              exact Or.inr (hxn ▸ hncb)
        · exact Or.inr hcb

/-- `validate_urns` never touches the flow-start table. -/
theorem validate_urns_flow_starts (db : Database) (org user : Nat) (urns : List String) :
    (validate_urns db org user urns).2.flow_starts = db.flow_starts := by
  induction urns generalizing db with
  | nil => rfl
  | cons urn rest ih =>
    rcases hgc : Contact_get_or_create db org user urn with ⟨c, db1⟩
    rcases hv : validate_urns db1 org user rest with ⟨cs, db2⟩
    have h1 := get_or_create_flow_starts db org user urn
    rw [hgc] at h1
    have h2 := ih db1
    rw [hv] at h2
    simp only [validate_urns, hgc, hv]
    exact h2.trans h1

/-- Per-field validation never touches the flow-start table (it may create
contacts for the `urns` field, nothing more). -/
theorem to_internal_value_flow_starts (db : Database) (org user : Nat)
    (body : FlowStartBody) :
    (FlowStart_to_internal_value db org user body).2.flow_starts = db.flow_starts := by
  cases hbu : body.urns with
  | none =>
    simp only [FlowStart_to_internal_value, hbu, Option.map_none']
    split <;> rfl
  | some us =>
    cases hrv : URNListField_run_validation us with
    | error e =>
      simp only [FlowStart_to_internal_value, hbu, Option.map_some', hrv]
      split <;> rfl
    | ok ns =>
      rcases hv : validate_urns db org user ns with ⟨cs, db1⟩
      have hfs := validate_urns_flow_starts db org user ns
      rw [hv] at hfs
      simp only [FlowStart_to_internal_value, hbu, Option.map_some', hrv, hv]
      split <;> exact hfs

/-- The whole validation pipeline never touches the flow-start table. -/
theorem run_validation_flow_starts (db : Database) (org user : Nat)
    (data : RequestData FlowStartBody) :
    (FlowStart_run_validation db org user data).2.flow_starts = db.flow_starts := by
  cases data with
  | notAnObject => rfl
  | jsonObject body =>
    have hti := to_internal_value_flow_starts db org user body
    rcases h : FlowStart_to_internal_value db org user body with ⟨r, db1⟩
    rw [h] at hti
    cases r with
    | error errs =>
      simp only [FlowStart_run_validation, WriteSerializer_run_validation, h]
      exact hti
    | ok vd =>
      cases hcv : FlowStart_validate vd <;>
        simp only [FlowStart_run_validation, WriteSerializer_run_validation, h, hcv] <;>
        exact hti

/-- An unresolvable UUID anywhere in the `contacts` list fails the whole
field with the field's error message. -/
theorem validate_contacts_go_error (db : Database) (org : Nat) (value : List UUID)
    (u : UUID) (hnone : find_contact db org u = none) :
    ∀ l : List UUID, u ∈ l →
      validate_contacts.go db org value l =
        Except.error ("No contact found with UUID: " ++ toString value) := by
  intro l hl
  induction l with
  | nil => cases hl
  | cons v rest ih =>
    rcases List.mem_cons.mp hl with rfl | hrest
    · simp [validate_contacts.go, hnone]
    · cases hfv : find_contact db org v with
      | none => simp [validate_contacts.go, hfv]
      | some c => simp [validate_contacts.go, hfv, ih hrest, Except.map]

/-- Specialization to `validate_contacts` itself. -/
theorem validate_contacts_error_of_unresolvable (db : Database) (org : Nat)
    (value : List UUID) (u : UUID) (hu : u ∈ value)
    (hnone : find_contact db org u = none) :
    validate_contacts db org value =
      Except.error ("No contact found with UUID: " ++ toString value) :=
  validate_contacts_go_error db org value u hnone value hu

/-- If the `contacts` field validation fails, per-field validation fails
with an error dict containing the `contacts` entry. -/
theorem to_internal_value_contacts_error (db : Database) (org user : Nat)
    (body : FlowStartBody) (l : List UUID) (m : String)
    (hbc : body.contacts = some l)
    (herr : validate_contacts db org l = Except.error m) :
    ∃ errs db1, FlowStart_to_internal_value db org user body =
        (Except.error errs, db1) ∧ ("contacts", m) ∈ errs := by
  simp only [FlowStart_to_internal_value, hbc, Option.map_some', herr]
  split
  · rename_i flow cs gs us hflow hcontacts hgroups hurns
    simp [optField] at hcontacts
  · refine ⟨_, _, rfl, ?_⟩
    simp [fieldErrors]

/-- C2: a flow-start POST containing an unresolvable contact UUID fails as
a whole with a 400 response carrying a `contacts` field error, creating no
FlowStart; and in general any 400 outcome of the endpoint leaves the
flow-start table untouched and creates nothing. -/
theorem flow_start_validation_fail_fast (db : Database) (org user : Nat)
    (body : FlowStartBody) (u : UUID)
    (hu : u ∈ body.contacts.getD [])
    (hnone : find_contact db org u = none) :
    ((FlowStartsEndpoint_post db org user (RequestData.jsonObject body)).status = 400 ∧
     "contacts" ∈ (FlowStartsEndpoint_post db org user
        (RequestData.jsonObject body)).errors.map Prod.fst ∧
     (FlowStartsEndpoint_post db org user
        (RequestData.jsonObject body)).db.flow_starts = db.flow_starts ∧
     (FlowStartsEndpoint_post db org user (RequestData.jsonObject body)).created = none) ∧
    (∀ (db2 : Database) (org2 user2 : Nat) (data : RequestData FlowStartBody),
      (FlowStartsEndpoint_post db2 org2 user2 data).status = 400 →
      (FlowStartsEndpoint_post db2 org2 user2 data).db.flow_starts = db2.flow_starts ∧
      (FlowStartsEndpoint_post db2 org2 user2 data).created = none) := by
  constructor
  · rcases hbc : body.contacts with _ | l
    · rw [hbc] at hu
      cases hu
    · rw [hbc] at hu
      simp only [Option.getD_some] at hu
      have herr := validate_contacts_error_of_unresolvable db org l u hu hnone
      obtain ⟨errs, db1, hti, hm⟩ :=
        to_internal_value_contacts_error db org user body l
          ("No contact found with UUID: " ++ toString l) hbc herr
      have hfs := to_internal_value_flow_starts db org user body
      rw [hti] at hfs
      simp only [FlowStartsEndpoint_post, FlowStart_run_validation,
        WriteSerializer_run_validation, hti]
      refine ⟨by trivial, ?_, ?_, by trivial⟩
      · exact List.mem_map.mpr ⟨_, hm, rfl⟩
      · exact hfs
  · intro db2 org2 user2 data h400
    have hfs := run_validation_flow_starts db2 org2 user2 data
    rcases hrv : FlowStart_run_validation db2 org2 user2 data with ⟨r, db1⟩
    rw [hrv] at hfs
    cases r with
    | error errs =>
      simp only [FlowStartsEndpoint_post, hrv]
      exact ⟨hfs, by trivial⟩
    | ok vd =>
      rw [show (FlowStartsEndpoint_post db2 org2 user2 data).status = 201 from by
        simp [FlowStartsEndpoint_post, hrv, FlowStart_save]] at h400
      cases h400

/-- Witness for C2: a store with no contact 999 rejects a POST naming it,
creating nothing. -/
theorem flow_start_validation_fail_fast_witness :
    (999 ∈ ((some [999] : Option (List UUID)).getD []) ∧
      find_contact baseDb 1 999 = none) ∧
    ((FlowStartsEndpoint_post baseDb 1 7 (RequestData.jsonObject
        { flow := some 100, contacts := some [999], groups := none, urns := none,
          restart_participants := none })).status = 400 ∧
     "contacts" ∈ (FlowStartsEndpoint_post baseDb 1 7 (RequestData.jsonObject
        { flow := some 100, contacts := some [999], groups := none, urns := none,
          restart_participants := none })).errors.map Prod.fst ∧
     (FlowStartsEndpoint_post baseDb 1 7 (RequestData.jsonObject
        { flow := some 100, contacts := some [999], groups := none, urns := none,
          restart_participants := none })).db.flow_starts = baseDb.flow_starts ∧
     (FlowStartsEndpoint_post baseDb 1 7 (RequestData.jsonObject
        { flow := some 100, contacts := some [999], groups := none, urns := none,
          restart_participants := none })).created = none) :=
  ⟨⟨by decide, by decide⟩,
   (flow_start_validation_fail_fast baseDb 1 7
      { flow := some 100, contacts := some [999], groups := none, urns := none,
        restart_participants := none } 999 (by decide) (by decide)).1⟩

/-- C6: a syntactically invalid URN fails the URN field with a field-level
error (and any invalid entry fails the whole `urns` list field), a valid
URN passes as its normalized form; resolution has get-or-create semantics:
a contact row matching the URN is reused as-is (store untouched), and in
aggregate `validate_urns` yields exactly one contact per URN, each scoped
to the organization and either pre-existing or attributed to the
requesting user. -/
theorem urn_validation_and_get_or_create :
    (∀ urn, URN_validate urn = false →
      URNField_to_internal_value urn = Except.error ("Invalid URN: " ++ urn)) ∧
    (∀ urn, URN_validate urn = true →
      URNField_to_internal_value urn = Except.ok (URN_normalize urn)) ∧
    (∀ (urns : List String) (u : String), u ∈ urns → URN_validate u = false →
      ∃ e, URNListField_run_validation urns = Except.error e) ∧
    (∀ (db : Database) (org user : Nat) (urn : String) (c : Contact),
      db.contacts.find? (fun c =>
        c.org == org && c.is_active && c.urns.contains urn) = some c →
      Contact_get_or_create db org user urn = (c, db)) ∧
    (∀ (db : Database) (org user : Nat) (urns : List String),
      (validate_urns db org user urns).1.length = urns.length ∧
      ∀ c ∈ (validate_urns db org user urns).1,
        c.org = org ∧ (c ∈ db.contacts ∨ c.created_by = user)) := by
  refine ⟨?_, ?_, ?_, ?_, validate_urns_spec⟩
  · intro urn h
    simp [URNField_to_internal_value, h]
  · intro urn h
    simp [URNField_to_internal_value, h]
  · intro urns u hu hbad
    induction urns with
    | nil => cases hu
    | cons v rest ih =>
      rcases List.mem_cons.mp hu with rfl | hrest
      · refine ⟨"Invalid URN: " ++ u, ?_⟩
        simp [URNListField_run_validation, URNField_to_internal_value, hbad]
      · cases hviv : URNField_to_internal_value v with
        | error e =>
          exact ⟨e, by simp [URNListField_run_validation, hviv]⟩
        | ok n =>
          obtain ⟨e, he⟩ := ih hrest
          exact ⟨e, by simp [URNListField_run_validation, hviv, he, Except.map]⟩
  · intro db org user urn c hfind
    unfold Contact_get_or_create
    rw [hfind]

/-- Witness for C6: each hypothesis-bearing part at a concrete input — an
invalid URN is rejected alone and inside a list, a valid one is accepted,
and the existing `contactY` is reused for its URN without touching the
store. -/
theorem urn_validation_and_get_or_create_witness :
    (URN_validate "notaurn" = false ∧
      URNField_to_internal_value "notaurn" =
        Except.error ("Invalid URN: " ++ "notaurn")) ∧
    (URN_validate "tel:+250788123123" = true ∧
      URNField_to_internal_value "tel:+250788123123" =
        Except.ok (URN_normalize "tel:+250788123123")) ∧
    (∃ e, URNListField_run_validation ["notaurn"] = Except.error e) ∧
    (baseDb.contacts.find? (fun c =>
        c.org == 1 && c.is_active && c.urns.contains "tel:+250788123123") =
      some contactY ∧
      Contact_get_or_create baseDb 1 7 "tel:+250788123123" = (contactY, baseDb)) :=
  ⟨⟨by decide, urn_validation_and_get_or_create.1 "notaurn" (by decide)⟩,
   ⟨by decide, urn_validation_and_get_or_create.2.1 "tel:+250788123123" (by decide)⟩,
   urn_validation_and_get_or_create.2.2.1 ["notaurn"] "notaurn" (by decide) (by decide),
   ⟨by decide,
    urn_validation_and_get_or_create.2.2.2.1 baseDb 1 7 "tel:+250788123123" contactY
      (by decide)⟩⟩

/-- The request of a valid flow-start POST naming `flowX` and `contactY`. -/
def validStartRequest : RequestData FlowStartBody :=
  RequestData.jsonObject
    { flow := some 100, contacts := some [200], groups := none, urns := none,
      restart_participants := none }

/-- The validated data that request resolves to. -/
def validStartValidated : FlowStartValidatedData :=
  { flow := flowX, contacts := some [contactY], groups := none, urns := none,
    restart_participants := none }

/-- C7: whenever validation succeeds, the handler first persists the
FlowStart record in pending state, then issues exactly one `async_start`
dispatch for that record, and only then returns the 201 response; the
record is durably in the store at response time, and the handler never
awaits enrollment completion. -/
theorem flow_start_dispatch_protocol (db : Database) (org user : Nat)
    (data : RequestData FlowStartBody) (vd : FlowStartValidatedData)
    (db1 : Database)
    (hok : FlowStart_run_validation db org user data = (Except.ok vd, db1)) :
    ∃ s : FlowStart,
      (FlowStartsEndpoint_post db org user data).created = some s ∧
      s.status = FlowStartStatus.pending ∧
      (FlowStartsEndpoint_post db org user data).events =
        [Event.record_created s.id, Event.async_start s.id, Event.responded 201] ∧
      s ∈ (FlowStartsEndpoint_post db org user data).db.flow_starts ∧
      (∀ sid, Event.await_completion sid ∉
        (FlowStartsEndpoint_post db org user data).events) ∧
      (FlowStartsEndpoint_post db org user data).status = 201 := by
  rcases hsave : FlowStart_save db1 user vd with ⟨start, db2⟩
  have hsave2 := hsave
  simp only [FlowStart_save, FlowStart_create, Prod.mk.injEq] at hsave2
  obtain ⟨hstart, hdb2⟩ := hsave2
  refine ⟨start, ?_⟩
  simp only [FlowStartsEndpoint_post, hok, hsave]
  refine ⟨by trivial, ?_, by trivial, ?_, ?_, by trivial⟩
  · rw [← hstart]
  · rw [← hdb2]
    simp [← hstart]
  · intro sid
    simp

/-- Witness for C7: the valid request against `baseDb` validates cleanly
and the dispatch protocol holds for it. -/
theorem flow_start_dispatch_protocol_witness :
    FlowStart_run_validation baseDb 1 7 validStartRequest =
      (Except.ok validStartValidated, baseDb) ∧
    (∃ s : FlowStart,
      (FlowStartsEndpoint_post baseDb 1 7 validStartRequest).created = some s ∧
      s.status = FlowStartStatus.pending ∧
      (FlowStartsEndpoint_post baseDb 1 7 validStartRequest).events =
        [Event.record_created s.id, Event.async_start s.id, Event.responded 201] ∧
      s ∈ (FlowStartsEndpoint_post baseDb 1 7 validStartRequest).db.flow_starts ∧
      (∀ sid, Event.await_completion sid ∉
        (FlowStartsEndpoint_post baseDb 1 7 validStartRequest).events) ∧
      (FlowStartsEndpoint_post baseDb 1 7 validStartRequest).status = 201) :=
  ⟨rfl, flow_start_dispatch_protocol baseDb 1 7 validStartRequest
    validStartValidated baseDb rfl⟩

/-- Witness for C4 (amended): a non-empty audience passes cross-field
validation. -/
theorem cross_field_audience_rule_witness :
    ¬(validStartValidated.groups.getD [] = [] ∧
      validStartValidated.contacts.getD [] = [] ∧
      validStartValidated.urns.getD [] = []) ∧
    FlowStart_validate validStartValidated = Except.ok validStartValidated :=
  ⟨by decide, (cross_field_audience_rule validStartValidated).2.mpr (by decide)⟩

/-- Witness for C5: the status instance and the membership
characterization at flow 10 of the mixed store. -/
theorem definitions_unknown_uuid_tolerance_witness :
    (DefinitionsEndpoint_get dbMixed 1 paramsMixed).status = 200 ∧
    10 ∈ resolved_flow_set dbMixed 1 [10, 99, 20] :=
  ⟨definitions_unknown_uuid_tolerance.1 dbMixed 1 paramsMixed,
   (definitions_unknown_uuid_tolerance.2.1 dbMixed 1 [10, 99, 20] 10).mpr
     ⟨{ uuid := 10, org := 1, is_active := true, flow_deps := [], trigger_deps := [],
        group_deps := [] }, by decide, by decide, by decide, by decide⟩⟩

/-- Witness for C8: monotone growth applied at a concrete accumulator. -/
theorem dependency_cycle_safety_witness :
    ({5} : Finset Nat) ⊆ (visitFlows dbCycle []
      { flows := {5}, campaigns := ∅, triggers := ∅, groups := ∅ }).flows :=
  dependency_cycle_safety.1 dbCycle []
    { flows := {5}, campaigns := ∅, triggers := ∅, groups := ∅ }

/-- Witness for C10: the non-object rejection at a concrete store. -/
theorem write_request_non_object_rejected_witness :
    (FlowStartsEndpoint_post baseDb 1 7 RequestData.notAnObject).status = 400 ∧
    (FlowStartsEndpoint_post baseDb 1 7 RequestData.notAnObject).errors =
      [("non_field_errors", "Request body should be a single JSON object")] ∧
    (FlowStartsEndpoint_post baseDb 1 7 RequestData.notAnObject).db = baseDb ∧
    (FlowStartsEndpoint_post baseDb 1 7 RequestData.notAnObject).created = none ∧
    (ResthookSubscriberEndpoint_post baseDb 1 7 RequestData.notAnObject).status = 400 ∧
    (ResthookSubscriberEndpoint_post baseDb 1 7 RequestData.notAnObject).errors =
      [("non_field_errors", "Request body should be a single JSON object")] ∧
    (ResthookSubscriberEndpoint_post baseDb 1 7 RequestData.notAnObject).db = baseDb ∧
    (ResthookSubscriberEndpoint_post baseDb 1 7 RequestData.notAnObject).created = none :=
  write_request_non_object_rejected baseDb 1 7

end RapidPro
